import Mathlib

/-!
Shallow embedding of the EDA repository's repurchase / seller-metrics
aggregation pipeline (src/app.py, src/eda_script.py,
src/seller_repurchase_analysis.py).

Modelling conventions:
* A table row carries the columns the aggregation reads.  Nullable cells
  (customer contact, cancellation flag, the paid amount) are `Option`s;
  the raw supply-unit-price cell is kept as a string because the code
  re-cleans it textually.  Optional columns of the frame are presence
  flags on the frame.
* Monetary values are rationals: every concrete value the scripts handle
  is an exact decimal, and none of the verified properties depends on
  binary floating-point rounding.  What does matter is IEEE division by
  zero, so the result of a pandas float division is modelled by `PFloat`,
  which separates finite values from nan and the two infinities exactly
  as numpy produces them (x/0 is +-inf for x nonzero, nan for 0/0), and
  `Series.fillna(0)` replaces only nan, never an infinity.
* Order timestamps are modelled at day granularity (an integer day
  index), which is the granularity at which the specification states the
  tenure / recency properties.
* A pandas operation that raises is modelled by `Option` with `none` for
  the raised error.
-/

/-- Result of a pandas float arithmetic step: a finite value, nan, or an
infinity. -/
inductive PFloat where
  | val (q : ℚ)
  | nan
  | inf
  | neginf
deriving DecidableEq, Repr

/-- Pandas / numpy division of two finite floats: x/0 is nan when x = 0,
and a signed infinity otherwise. -/
def pdiv (a b : ℚ) : PFloat :=
  if b ≠ 0 then .val (a / b) else if a = 0 then .nan else if 0 < a then .inf else .neginf

/-- Multiplication by the literal 100, as applied to a rate series. -/
def pmul100 : PFloat → PFloat
  | .val q => .val (q * 100)
  | .nan => .nan
  | .inf => .inf
  | .neginf => .neginf

/-- Series.fillna(0): replaces nan by 0 and leaves every other value,
infinities included, unchanged. -/
def fillna0 : PFloat → PFloat
  | .nan => .val 0
  | x => x

/-- Numeric value of a list of ASCII digit characters. -/
def digitsToNat (l : List Char) : ℕ :=
  l.foldl (fun n c => n * 10 + (c.toNat - 48)) 0

/-- Scanner half of the decimal-string parser: whether the string is a
well-formed decimal (an optional leading minus sign, then digits with at
most one decimal point and at least one digit), its sign, and the
numeric values of its integer and fractional digit groups. -/
structure ParsedNum where
  ok : Bool
  neg : Bool
  ipVal : ℕ
  fpVal : ℕ
  fpLen : ℕ
deriving DecidableEq, Repr

/-- Scan a candidate decimal string into its `ParsedNum` summary. -/
def scanNum (s : String) : ParsedNum :=
  let l := s.toList
  let neg := l.head? == some '-'
  let t := if neg then l.drop 1 else l
  let ok := t.all (fun c => c.isDigit || c == '.') && decide (t.count '.' ≤ 1)
      && t.any (fun c => c.isDigit)
  let ip := t.takeWhile (fun c => c != '.')
  let fp := (t.dropWhile (fun c => c != '.')).drop 1
  ⟨ok, neg, digitsToNat ip, digitsToNat fp, fp.length⟩

/-- Model of parsing a decimal string (pandas `to_numeric` on one cell /
Python float()): an optional leading minus sign, then digits with at most
one decimal point and at least one digit; anything else fails (`none`). -/
def parseNum (s : String) : Option ℚ :=
  let p := scanNum s
  if p.ok then
    some ((if p.neg then -1 else 1) * ((p.ipVal : ℚ) + (p.fpVal : ℚ) / ((10 : ℚ) ^ p.fpLen)))
  else none

/-- The regex strip applied by calculate_seller_metrics before parsing a
currency cell: keep only digits, the decimal point and the minus sign. -/
def stripCurrency (s : String) : String :=
  String.mk (s.toList.filter (fun c => c.isDigit || c == '.' || c == '-'))

/-- Currency-cell cleaning in calculate_seller_metrics (src/app.py lines
90-91 and 96-97): strip non-numeric characters, parse, and coerce an
unparseable remainder to 0.  Total: it never fails. -/
def cleanCurrencyCell (s : String) : ℚ :=
  (parseNum (stripCurrency s)).getD 0

/-- Comma removal, as applied by load_data's price-column cleaning. -/
def removeCommas (s : String) : String :=
  String.mk (s.toList.filter (fun c => c != ','))

/-- Price-column cleaning in load_data (src/app.py lines 43-45): remove
commas, then cast to float.  The cast raises on an unparseable cell,
modelled by `none`. -/
def loadDataCleanCell (s : String) : Option ℚ :=
  parseNum (removeCommas s)

/-- One row of the order table, with the columns the pipeline reads.
The three trailing fields model the derived columns that
calculate_seller_metrics writes back into the frame; on a freshly loaded
frame they are `none`. -/
structure Row where
  seller : String
  orderId : String
  contact : Option String
  orderDate : ℤ
  qty : ℚ
  paid : Option ℚ
  supplyPrice : String
  cancelFlag : Option String
  supplyCost : Option ℚ := none
  margin : Option ℚ := none
  isCancelled : Option ℕ := none
deriving DecidableEq, Repr

/-- The in-memory table: rows plus presence flags for the optional
columns (order date, customer contact, supply unit price, cancellation
flag).  The seller, order id, quantity and paid-amount columns are
always present: the aggregation references them unconditionally. -/
structure DataFrame where
  rows : List Row
  hasOrderDate : Bool
  hasContact : Bool
  hasSupply : Bool
  hasCancel : Bool
deriving DecidableEq, Repr

/-- The per-row, in-place cleaning performed at the top of
calculate_seller_metrics (src/app.py lines 85-104): coerce the paid
amount to a number (null becomes 0), compute SupplyCost and Margin when
the supply-price column is present (Margin is the scalar 0 otherwise),
and set the IsCancelled indicator (1 exactly for the string Y; the
scalar 0 when the cancellation column is absent). -/
def cleanRow (hasSupply hasCancel : Bool) (r : Row) : Row :=
  let paid := r.paid.getD 0
  let cost := cleanCurrencyCell r.supplyPrice * r.qty
  { r with
    paid := some paid
    supplyCost := if hasSupply then some cost else r.supplyCost
    margin := some (if hasSupply then paid - cost else 0)
    isCancelled := some (if hasCancel && (r.cancelFlag == some "Y") then 1 else 0) }

/-- Lexicographic comparison of character lists, by code point. -/
def charListLe : List Char → List Char → Bool
  | [], _ => true
  | _ :: _, [] => false
  | a :: as, b :: bs =>
    if a.toNat < b.toNat then true
    else if b.toNat < a.toNat then false
    else charListLe as bs

/-- Lexicographic order on seller names, used by the groupby key sort. -/
def nameLe (a b : String) : Prop := charListLe a.toList b.toList = true

instance : DecidableRel nameLe := fun a b =>
  inferInstanceAs (Decidable (charListLe a.toList b.toList = true))

/-- Group keys of df.groupby on the seller column: the distinct seller
names, in sorted order (pandas groupby sorts keys by default). -/
def sortedSellers (rows : List Row) : List String :=
  List.insertionSort nameLe (rows.map Row.seller).dedup

/-- One row of the seller summary produced by calculate_seller_metrics. -/
structure SellerStat where
  seller : String
  totalRevenue : ℚ
  totalMargin : ℚ
  orderCount : ℕ
  totalQty : ℚ
  cancelCount : ℕ
  marginRate : PFloat := .val 0
  cancelRate : PFloat := .val 0
  aov : PFloat := .val 0
  repurchaseRate : ℚ := 0
  firstOrderDate : Option ℤ := none
  lastOrderDate : Option ℤ := none
  tenureDays : ℤ := 0
  recencyDays : ℤ := 0
deriving DecidableEq, Repr

/-- The grouped aggregation and the derived rate columns (src/app.py
lines 107-119): sums, distinct order-id count, and the MarginRate /
CancelRate / AOV columns with pandas float division semantics.
MarginRate is fillna(0)-ed; CancelRate and AOV are not. -/
def baseStat (rows : List Row) (s : String) : SellerStat :=
  let rs := rows.filter (fun r => r.seller = s)
  let tr := (rs.map (fun r => r.paid.getD 0)).sum
  let tm := (rs.map (fun r => r.margin.getD 0)).sum
  let oc := (rs.map Row.orderId).dedup.length
  let tq := (rs.map Row.qty).sum
  let cc := (rs.map (fun r => r.isCancelled.getD 0)).sum
  { seller := s
    totalRevenue := tr
    totalMargin := tm
    orderCount := oc
    totalQty := tq
    cancelCount := cc
    marginRate := fillna0 (pmul100 (pdiv tm tr))
    cancelRate := pmul100 (pdiv (cc : ℚ) (oc : ℚ))
    aov := pdiv tr (oc : ℚ) }

/-- Per-seller repurchase rate of calculate_seller_metrics (src/app.py
lines 124-131): value_counts of the contact column over this seller's
rows (null contacts dropped), a customer repurchases when they occur in
more than one raw row, rate = repurchasers / distinct customers * 100,
0 when there are no customers. -/
def sellerRepurchaseRate (rows : List Row) (s : String) : ℚ :=
  let rs := rows.filter (fun r => r.seller = s)
  let cs := rs.filterMap Row.contact
  let keys := cs.dedup
  let re := (keys.filter (fun c => 1 < cs.count c)).length
  if 0 < keys.length then (re : ℚ) / (keys.length : ℚ) * 100 else 0

/-- RepurchaseRate column assignment (src/app.py lines 123-134): the
per-seller rate when the contact column exists, the scalar 0 otherwise. -/
def withRepurchase (hasContact : Bool) (rows : List Row) (st : SellerStat) : SellerStat :=
  { st with repurchaseRate := if hasContact then sellerRepurchaseRate rows st.seller else 0 }

/-- Maximum of a list of integers (0 on the empty list; the pipeline only
evaluates it on nonempty lists). -/
def listMax : List ℤ → ℤ
  | [] => 0
  | x :: xs => xs.foldl max x

/-- Minimum of a list of integers (0 on the empty list). -/
def listMin : List ℤ → ℤ
  | [] => 0
  | x :: xs => xs.foldl min x

/-- Lifecycle columns (src/app.py lines 136-154): when the order-date
column exists, merge in the per-seller first/last order dates and set
TenureDays = last - first + 1 and RecencyDays = dataset max - last;
otherwise the columns default to 0 and the first order date to null. -/
def addLifecycle (hasOrderDate : Bool) (rows : List Row) (st : SellerStat) : SellerStat :=
  if hasOrderDate then
    let ds := (rows.filter (fun r => r.seller = st.seller)).map Row.orderDate
    let firstD := listMin ds
    let lastD := listMax ds
    let dmax := listMax (rows.map Row.orderDate)
    { st with
      firstOrderDate := some firstD
      lastOrderDate := some lastD
      tenureDays := lastD - firstD + 1
      recencyDays := dmax - lastD }
  else
    { st with tenureDays := 0, recencyDays := 0, firstOrderDate := none, lastOrderDate := none }

/-- Ascending comparison on the TotalRevenue key, used to model
sort_values. -/
def statLe (a b : SellerStat) : Prop := a.totalRevenue ≤ b.totalRevenue

instance : DecidableRel statLe := fun a b => inferInstanceAs (Decidable (_ ≤ _))

instance : IsTotal SellerStat statLe :=
  ⟨fun a b => le_total a.totalRevenue b.totalRevenue⟩

instance : IsTrans SellerStat statLe :=
  ⟨fun _ _ _ h h' => le_trans h h'⟩

/-- Pandas sort_values(by=TotalRevenue, ascending=False): an ascending
argsort followed by a reversal of the whole index (pandas
core.sorting.nargsort reverses the ascending order when ascending is
False).  For the small-array regime numpy's quicksort is insertion sort
and hence stable, which the stable `insertionSort` mirrors exactly. -/
def pandasSortByRevenueDesc (stats : List SellerStat) : List SellerStat :=
  (List.insertionSort statLe stats).reverse

/-- The frame's rows after the in-place cleaning step of
calculate_seller_metrics. -/
def cleanedRows (df : DataFrame) : List Row :=
  df.rows.map (cleanRow df.hasSupply df.hasCancel)

/-- The finished summary row of one seller: base aggregation, then the
RepurchaseRate column, then the lifecycle columns. -/
def statOf (df : DataFrame) (s : String) : SellerStat :=
  addLifecycle df.hasOrderDate (cleanedRows df)
    (withRepurchase df.hasContact (cleanedRows df) (baseStat (cleanedRows df) s))

/-- Model of calculate_seller_metrics (src/app.py lines 83-156).  The
function cleans the frame in place, aggregates per seller, and returns
the summary sorted by TotalRevenue descending.  The returned pair is
(state of the input frame after the call, seller summary): pandas passes
the frame by reference, so the in-place cleaning is visible to the
caller. -/
def calculate_seller_metrics (df : DataFrame) : DataFrame × List SellerStat :=
  ({ df with rows := cleanedRows df },
    pandasSortByRevenueDesc ((sortedSellers (cleanedRows df)).map (statOf df)))

/-- Per-contact distinct-date counts of the global repurchase annotator
(the groupby of src/app.py line 53 / src/eda_script.py line 68): for
each distinct non-null contact, the number of distinct order dates of
that contact's rows.  Rows with a null contact are dropped by groupby. -/
def user_order_counts (rows : List Row) : List (String × ℕ) :=
  ((rows.filterMap Row.contact).dedup).map
    (fun c => (c, ((rows.filter (fun r => r.contact = some c)).map Row.orderDate).dedup.length))

/-- The global repurchase annotator (src/app.py lines 51-56 and the
identical src/eda_script.py calculate_repurchase, lines 68-79): each row
receives (its contact's distinct-date count) - 1, looked up in the
groupby result; a row whose contact is null maps to a null count, which
fillna(0) turns into 0.  Returned as the attached per-row column, in row
order. -/
def calculate_repurchase (rows : List Row) : List ℤ :=
  rows.map (fun r =>
    match r.contact with
    | none => 0
    | some c =>
      match (user_order_counts rows).lookup c with
      | some n => (n : ℤ) - 1
      | none => 0)

/-- Per-seller repurchase rate of analyze_seller_repurchase
(src/seller_repurchase_analysis.py lines 51-64): a customer repurchases
when they ordered on more than one distinct calendar date for this
seller; rate = repurchasers / distinct customers * 100, 0 when there are
no customers. -/
def analyze_repurchase_rate (rows : List Row) (s : String) : ℚ :=
  let rs := rows.filter (fun r => r.seller = s)
  let keys := (rs.filterMap Row.contact).dedup
  let re := (keys.filter (fun c =>
      1 < ((rs.filter (fun r => r.contact = some c)).map Row.orderDate).dedup.length)).length
  if 0 < keys.length then (re : ℚ) / (keys.length : ℚ) * 100 else 0

/-! ### Specification-side definitions

These restate, independently of the code path, the quantities the
specification talks about (distinct counts as finite-set cardinalities,
minima / maxima characterized by membership and bounds).  The claim
theorems relate the pipeline's outputs to them. -/

/-- A value is the minimum of a list when it belongs to the list and
bounds it from below. -/
def IsListMin (l : List ℤ) (m : ℤ) : Prop := m ∈ l ∧ ∀ y ∈ l, m ≤ y

/-- A value is the maximum of a list when it belongs to the list and
bounds it from above. -/
def IsListMax (l : List ℤ) (m : ℤ) : Prop := m ∈ l ∧ ∀ y ∈ l, y ≤ m

/-- Spec-side global repurchase count of one row: the number of distinct
order dates of the row's contact (as a finite-set cardinality), minus
one; 0 for a row whose contact is null. -/
def specRepurchase (rows : List Row) (r : Row) : ℤ :=
  match r.contact with
  | none => 0
  | some c =>
    (((rows.filter (fun x => x.contact = some c)).map Row.orderDate).toFinset.card : ℤ) - 1

/-- Spec-side per-seller repurchase rate of the aggregator: over this
seller's rows, a customer repurchases when they occur in more than one
raw row; rate = repurchasers / distinct customers x 100, 0 with no
customers, and 0 for every seller when the contact column is absent. -/
def specSellerRepurchase (df : DataFrame) (s : String) : ℚ :=
  if df.hasContact then
    (let cs := (df.rows.filter (fun r => r.seller = s)).filterMap Row.contact
     let total := cs.toFinset.card
     let re := (cs.toFinset.filter (fun c => 1 < cs.count c)).card
     if 0 < total then (re : ℚ) / (total : ℚ) * 100 else 0)
  else 0

/-- The per-seller well-definedness of MarginRate and CancelRate that the
code actually guarantees: neither is ever NaN; CancelRate is always the
finite value CancelCount / OrderCount x 100 (OrderCount is at least 1);
MarginRate is TotalMargin / TotalRevenue x 100 for nonzero revenue, 0
for zero revenue and zero margin, and a signed infinity for zero revenue
with nonzero margin (fillna(0) does not replace an infinity). -/
def RatesDefined (st : SellerStat) : Prop :=
  st.marginRate ≠ PFloat.nan ∧
  st.cancelRate ≠ PFloat.nan ∧
  0 < st.orderCount ∧
  st.cancelRate = PFloat.val ((st.cancelCount : ℚ) / (st.orderCount : ℚ) * 100) ∧
  (st.totalRevenue ≠ 0 → st.marginRate = PFloat.val (st.totalMargin / st.totalRevenue * 100)) ∧
  (st.totalRevenue = 0 → st.totalMargin = 0 → st.marginRate = PFloat.val 0) ∧
  (st.totalRevenue = 0 → st.totalMargin ≠ 0 →
    st.marginRate = PFloat.inf ∨ st.marginRate = PFloat.neginf)

/-- Spec-side statement of the lifecycle columns: when the order-date
column is present, TenureDays is (last - first) + 1 and RecencyDays is
(dataset-wide maximum - last), where first / last are the minimum /
maximum order date over this seller's rows; when it is absent, both
default to 0 and the first order date is null. -/
def LifecycleSpec (df : DataFrame) (st : SellerStat) : Prop :=
  if df.hasOrderDate then
    ∃ firstD lastD dmax : ℤ,
      IsListMin ((df.rows.filter (fun r => r.seller = st.seller)).map Row.orderDate) firstD ∧
      IsListMax ((df.rows.filter (fun r => r.seller = st.seller)).map Row.orderDate) lastD ∧
      IsListMax (df.rows.map Row.orderDate) dmax ∧
      st.firstOrderDate = some firstD ∧
      st.lastOrderDate = some lastD ∧
      st.tenureDays = lastD - firstD + 1 ∧
      st.recencyDays = dmax - lastD
  else st.tenureDays = 0 ∧ st.recencyDays = 0 ∧ st.firstOrderDate = none

/-! ### Concrete tables used by the closed theorems -/

/-- A row of seller a with paid amount 5. -/
def rowTieA : Row :=
  { seller := "a", orderId := "o1", contact := none, orderDate := 0,
    qty := 1, paid := some 5, supplyPrice := "", cancelFlag := none }

/-- A row of seller b with the same paid amount 5. -/
def rowTieB : Row :=
  { seller := "b", orderId := "o2", contact := none, orderDate := 0,
    qty := 1, paid := some 5, supplyPrice := "", cancelFlag := none }

/-- Two sellers with tied TotalRevenue. -/
def dfTie : DataFrame :=
  { rows := [rowTieA, rowTieB], hasOrderDate := false, hasContact := false,
    hasSupply := false, hasCancel := false }

/-- A row with paid amount 0 and a positive supply cost: its seller has
TotalRevenue 0 and TotalMargin -10. -/
def rowNegMargin : Row :=
  { seller := "s", orderId := "o1", contact := none, orderDate := 0,
    qty := 1, paid := some 0, supplyPrice := "10", cancelFlag := none }

/-- A frame whose single seller has zero revenue and nonzero margin. -/
def dfNegMargin : DataFrame :=
  { rows := [rowNegMargin], hasOrderDate := false, hasContact := false,
    hasSupply := true, hasCancel := false }

/-- First line item of a two-line same-day order history of customer c
with seller s. -/
def rowDup1 : Row :=
  { seller := "s", orderId := "o1", contact := some "c", orderDate := 0,
    qty := 1, paid := some 5, supplyPrice := "", cancelFlag := none }

/-- Second line item of the same customer, same seller, same calendar
date, under a different order id. -/
def rowDup2 : Row :=
  { seller := "s", orderId := "o2", contact := some "c", orderDate := 0,
    qty := 1, paid := some 5, supplyPrice := "", cancelFlag := none }

/-- One customer with two same-day rows from one seller. -/
def dfDup : DataFrame :=
  { rows := [rowDup1, rowDup2], hasOrderDate := true, hasContact := true,
    hasSupply := false, hasCancel := false }

/-- A minimal single-row frame with no optional columns. -/
def rowPlain : Row :=
  { seller := "s", orderId := "o1", contact := none, orderDate := 0,
    qty := 1, paid := some 10, supplyPrice := "", cancelFlag := none }

/-- A minimal frame: the derived columns are absent before the
aggregation runs. -/
def dfPlain : DataFrame :=
  { rows := [rowPlain], hasOrderDate := false, hasContact := false,
    hasSupply := false, hasCancel := false }

/-- Two line items sharing one order id (a multi-line order). -/
def rowMulti1 : Row :=
  { seller := "s", orderId := "o1", contact := none, orderDate := 0,
    qty := 1, paid := some 10, supplyPrice := "", cancelFlag := none }

/-- Second line item of the same order id. -/
def rowMulti2 : Row :=
  { seller := "s", orderId := "o1", contact := none, orderDate := 0,
    qty := 2, paid := some 20, supplyPrice := "", cancelFlag := none }

/-- A frame with one multi-line order. -/
def dfMulti : DataFrame :=
  { rows := [rowMulti1, rowMulti2], hasOrderDate := false, hasContact := false,
    hasSupply := false, hasCancel := false }

/-- Rows exercising the cancellation flag: exactly Y, lowercase y, and a
null cell. -/
def rowCancelY : Row :=
  { seller := "s", orderId := "o1", contact := none, orderDate := 0,
    qty := 1, paid := some 10, supplyPrice := "", cancelFlag := some "Y" }

/-- A row whose cancellation cell is lowercase y. -/
def rowCancelLower : Row :=
  { seller := "s", orderId := "o2", contact := none, orderDate := 0,
    qty := 1, paid := some 10, supplyPrice := "", cancelFlag := some "y" }

/-- A row whose cancellation cell is null. -/
def rowCancelNone : Row :=
  { seller := "s", orderId := "o3", contact := none, orderDate := 0,
    qty := 1, paid := some 10, supplyPrice := "", cancelFlag := none }

/-- A frame with cancellation cells Y, y and null for one seller. -/
def dfCancel : DataFrame :=
  { rows := [rowCancelY, rowCancelLower, rowCancelNone], hasOrderDate := false,
    hasContact := false, hasSupply := false, hasCancel := true }

/-! ### Projection lemmas for the cleaning step -/

@[simp]
theorem cleanRow_seller (hs hc : Bool) (r : Row) : (cleanRow hs hc r).seller = r.seller := rfl

@[simp]
theorem cleanRow_orderId (hs hc : Bool) (r : Row) : (cleanRow hs hc r).orderId = r.orderId := rfl

@[simp]
theorem cleanRow_contact (hs hc : Bool) (r : Row) : (cleanRow hs hc r).contact = r.contact := rfl

@[simp]
theorem cleanRow_orderDate (hs hc : Bool) (r : Row) :
    (cleanRow hs hc r).orderDate = r.orderDate := rfl

@[simp]
theorem cleanRow_qty (hs hc : Bool) (r : Row) : (cleanRow hs hc r).qty = r.qty := rfl

@[simp]
theorem cleanRow_supplyPrice (hs hc : Bool) (r : Row) :
    (cleanRow hs hc r).supplyPrice = r.supplyPrice := rfl

@[simp]
theorem cleanRow_cancelFlag (hs hc : Bool) (r : Row) :
    (cleanRow hs hc r).cancelFlag = r.cancelFlag := rfl

@[simp]
theorem cleanRow_paid (hs hc : Bool) (r : Row) :
    (cleanRow hs hc r).paid = some (r.paid.getD 0) := rfl

theorem cleanRow_isCancelled (hs hc : Bool) (r : Row) :
    (cleanRow hs hc r).isCancelled
      = some (if hc && (r.cancelFlag == some "Y") then 1 else 0) := rfl

/-- Filtering the cleaned rows on the seller column is the same as
cleaning the filtered rows: the cleaning step never changes a seller
name. -/
theorem filter_seller_map_clean (hs hc : Bool) (l : List Row) (s : String) :
    (l.map (cleanRow hs hc)).filter (fun r => r.seller = s)
      = (l.filter (fun r => r.seller = s)).map (cleanRow hs hc) := by
  induction l with
  | nil => rfl
  | cons r t ih =>
    by_cases h : r.seller = s <;>
      simp [List.filter_cons, h, ih]

/-! ### Projection lemmas for the per-stat pipeline stages -/

theorem withRepurchase_stable (hcon : Bool) (rows : List Row) (st : SellerStat) :
    (withRepurchase hcon rows st).seller = st.seller ∧
    (withRepurchase hcon rows st).totalRevenue = st.totalRevenue ∧
    (withRepurchase hcon rows st).totalMargin = st.totalMargin ∧
    (withRepurchase hcon rows st).orderCount = st.orderCount ∧
    (withRepurchase hcon rows st).totalQty = st.totalQty ∧
    (withRepurchase hcon rows st).cancelCount = st.cancelCount ∧
    (withRepurchase hcon rows st).marginRate = st.marginRate ∧
    (withRepurchase hcon rows st).cancelRate = st.cancelRate ∧
    (withRepurchase hcon rows st).aov = st.aov :=
  ⟨rfl, rfl, rfl, rfl, rfl, rfl, rfl, rfl, rfl⟩

theorem addLifecycle_stable (hd : Bool) (rows : List Row) (st : SellerStat) :
    (addLifecycle hd rows st).seller = st.seller ∧
    (addLifecycle hd rows st).totalRevenue = st.totalRevenue ∧
    (addLifecycle hd rows st).totalMargin = st.totalMargin ∧
    (addLifecycle hd rows st).orderCount = st.orderCount ∧
    (addLifecycle hd rows st).totalQty = st.totalQty ∧
    (addLifecycle hd rows st).cancelCount = st.cancelCount ∧
    (addLifecycle hd rows st).marginRate = st.marginRate ∧
    (addLifecycle hd rows st).cancelRate = st.cancelRate ∧
    (addLifecycle hd rows st).aov = st.aov ∧
    (addLifecycle hd rows st).repurchaseRate = st.repurchaseRate := by
  unfold addLifecycle
  split <;> exact ⟨rfl, rfl, rfl, rfl, rfl, rfl, rfl, rfl, rfl, rfl⟩

theorem baseStat_seller (rows : List Row) (s : String) : (baseStat rows s).seller = s := rfl

theorem baseStat_totalRevenue (rows : List Row) (s : String) :
    (baseStat rows s).totalRevenue
      = ((rows.filter (fun r => r.seller = s)).map (fun r => r.paid.getD 0)).sum := rfl

theorem baseStat_totalMargin (rows : List Row) (s : String) :
    (baseStat rows s).totalMargin
      = ((rows.filter (fun r => r.seller = s)).map (fun r => r.margin.getD 0)).sum := rfl

theorem baseStat_orderCount (rows : List Row) (s : String) :
    (baseStat rows s).orderCount
      = ((rows.filter (fun r => r.seller = s)).map Row.orderId).dedup.length := rfl

theorem baseStat_cancelCount (rows : List Row) (s : String) :
    (baseStat rows s).cancelCount
      = ((rows.filter (fun r => r.seller = s)).map (fun r => r.isCancelled.getD 0)).sum := rfl

theorem baseStat_marginRate (rows : List Row) (s : String) :
    (baseStat rows s).marginRate
      = fillna0 (pmul100 (pdiv (baseStat rows s).totalMargin (baseStat rows s).totalRevenue)) :=
  rfl

theorem baseStat_cancelRate (rows : List Row) (s : String) :
    (baseStat rows s).cancelRate
      = pmul100 (pdiv ((baseStat rows s).cancelCount : ℚ) ((baseStat rows s).orderCount : ℚ)) :=
  rfl

theorem statOf_seller (df : DataFrame) (s : String) : (statOf df s).seller = s := by
  unfold statOf
  rw [(addLifecycle_stable _ _ _).1, (withRepurchase_stable _ _ _).1, baseStat_seller]

/-! ### Membership in the summary -/

theorem mem_sortedSellers {rows : List Row} {s : String} :
    s ∈ sortedSellers rows ↔ s ∈ rows.map Row.seller := by
  unfold sortedSellers
  rw [(List.perm_insertionSort nameLe _).mem_iff, List.mem_dedup]

theorem metrics_snd (df : DataFrame) :
    (calculate_seller_metrics df).2
      = (List.insertionSort statLe
          ((sortedSellers (cleanedRows df)).map (statOf df))).reverse := rfl

theorem mem_metrics {df : DataFrame} {st : SellerStat}
    (h : st ∈ (calculate_seller_metrics df).2) :
    ∃ s, s ∈ sortedSellers (cleanedRows df) ∧ st = statOf df s := by
  rw [metrics_snd, List.mem_reverse,
    (List.perm_insertionSort statLe _).mem_iff, List.mem_map] at h
  obtain ⟨s, hs, hst⟩ := h
  exact ⟨s, hs, hst.symm⟩

theorem forall_metrics (df : DataFrame) (P : SellerStat → Prop)
    (h : ∀ s, s ∈ sortedSellers (cleanedRows df) → P (statOf df s)) :
    ((calculate_seller_metrics df).2).Forall P := by
  rw [List.forall_iff_forall_mem]
  intro st hst
  obtain ⟨s, hs, rfl⟩ := mem_metrics hst
  exact h s hs

theorem exists_row_of_mem_sortedSellers {rows : List Row} {s : String}
    (h : s ∈ sortedSellers rows) :
    ∃ r, r ∈ rows.filter (fun r => r.seller = s) := by
  rw [mem_sortedSellers, List.mem_map] at h
  obtain ⟨r, hr, hrs⟩ := h
  exact ⟨r, List.mem_filter.mpr ⟨hr, by simp [hrs]⟩⟩

theorem orderCount_pos {rows : List Row} {s : String} (h : s ∈ sortedSellers rows) :
    0 < (baseStat rows s).orderCount := by
  obtain ⟨r, hr⟩ := exists_row_of_mem_sortedSellers h
  rw [baseStat_orderCount]
  exact List.length_pos.mpr
    (List.ne_nil_of_mem (List.mem_dedup.mpr (List.mem_map_of_mem Row.orderId hr)))

/-! ### Case lemmas for the float-division model -/

theorem pdiv_of_ne_zero {a b : ℚ} (h : b ≠ 0) : pdiv a b = PFloat.val (a / b) := by
  simp [pdiv, h]

theorem pdiv_zero_zero : pdiv 0 0 = PFloat.nan := by
  simp [pdiv]

theorem pdiv_pos_zero {a : ℚ} (h : 0 < a) : pdiv a 0 = PFloat.inf := by
  simp [pdiv, h.ne', h]

theorem pdiv_neg_zero {a : ℚ} (h : a < 0) : pdiv a 0 = PFloat.neginf := by
  simp [pdiv, h.ne, not_lt.mpr h.le]

/-! ### Minimum and maximum of an integer list -/

theorem foldl_max_mem (xs : List ℤ) : ∀ x : ℤ, xs.foldl max x ∈ x :: xs := by
  induction xs with
  | nil => intro x; simp
  | cons z zs ih =>
    intro x
    rw [List.foldl_cons]
    rcases List.mem_cons.mp (ih (max x z)) with h1 | h1
    · rw [h1]
      rcases max_choice x z with hc | hc <;> rw [hc] <;> simp
    · simp [List.mem_cons_of_mem, h1]

theorem foldl_max_le (xs : List ℤ) : ∀ x y : ℤ, y ∈ x :: xs → y ≤ xs.foldl max x := by
  induction xs with
  | nil =>
    intro x y hy
    rw [List.mem_singleton] at hy
    simp [hy]
  | cons z zs ih =>
    intro x y hy
    rw [List.foldl_cons]
    have hbase : max x z ≤ zs.foldl max (max x z) :=
      ih (max x z) (max x z) (List.mem_cons_self _ _)
    rcases List.mem_cons.mp hy with h1 | h1
    · rw [h1]
      exact le_trans (le_max_left x z) hbase
    · rcases List.mem_cons.mp h1 with h2 | h2
      · rw [h2]
        exact le_trans (le_max_right x z) hbase
      · exact ih (max x z) y (List.mem_cons_of_mem _ h2)

theorem foldl_min_mem (xs : List ℤ) : ∀ x : ℤ, xs.foldl min x ∈ x :: xs := by
  induction xs with
  | nil => intro x; simp
  | cons z zs ih =>
    intro x
    rw [List.foldl_cons]
    rcases List.mem_cons.mp (ih (min x z)) with h1 | h1
    · rw [h1]
      rcases min_choice x z with hc | hc <;> rw [hc] <;> simp
    · simp [List.mem_cons_of_mem, h1]

theorem foldl_min_le (xs : List ℤ) : ∀ x y : ℤ, y ∈ x :: xs → xs.foldl min x ≤ y := by
  induction xs with
  | nil =>
    intro x y hy
    rw [List.mem_singleton] at hy
    simp [hy]
  | cons z zs ih =>
    intro x y hy
    rw [List.foldl_cons]
    have hbase : zs.foldl min (min x z) ≤ min x z :=
      ih (min x z) (min x z) (List.mem_cons_self _ _)
    rcases List.mem_cons.mp hy with h1 | h1
    · rw [h1]
      exact le_trans hbase (min_le_left x z)
    · rcases List.mem_cons.mp h1 with h2 | h2
      · rw [h2]
        exact le_trans hbase (min_le_right x z)
      · exact ih (min x z) y (List.mem_cons_of_mem _ h2)

theorem listMax_isMax {l : List ℤ} (h : l ≠ []) : IsListMax l (listMax l) := by
  cases l with
  | nil => exact absurd rfl h
  | cons x xs =>
    exact ⟨foldl_max_mem xs x, fun y hy => foldl_max_le xs x y hy⟩

theorem listMin_isMin {l : List ℤ} (h : l ≠ []) : IsListMin l (listMin l) := by
  cases l with
  | nil => exact absurd rfl h
  | cons x xs =>
    exact ⟨foldl_min_mem xs x, fun y hy => foldl_min_le xs x y hy⟩

/-! ### Counting helpers -/

theorem sum_indicator_eq_length (p : Row → Bool) (l : List Row) :
    (l.map (fun r => if p r then (1 : ℕ) else 0)).sum = (l.filter p).length := by
  induction l with
  | nil => rfl
  | cons r t ih =>
    by_cases h : p r <;> simp [List.filter_cons, h, ih] <;> omega

theorem lookup_map_self (f : String → ℕ) :
    ∀ (keys : List String) (c : String), c ∈ keys →
      (keys.map (fun k => (k, f k))).lookup c = some (f c) := by
  intro keys
  induction keys with
  | nil => intro c h; cases h
  | cons k ks ih =>
    intro c h
    rcases eq_or_ne c k with rfl | hne
    · simp [List.lookup]
    · have hb : (c == k) = false := beq_eq_false_iff_ne.mpr hne
      have hm : c ∈ ks := by
        rcases List.mem_cons.mp h with h1 | h1
        · exact absurd h1 hne
        · exact h1
      simp [List.lookup, hb, ih c hm]

theorem dedup_toFinset {α : Type} [DecidableEq α] (l : List α) :
    l.dedup.toFinset = l.toFinset := by
  ext a
  simp [List.mem_dedup]

theorem dedup_filter_length {α : Type} [DecidableEq α] (l : List α) (p : α → Bool) :
    (l.dedup.filter p).length = (l.toFinset.filter (fun a => p a = true)).card := by
  have hnd : (l.dedup.filter p).Nodup := (List.nodup_dedup l).filter p
  rw [← List.toFinset_card_of_nodup hnd, List.toFinset_filter, dedup_toFinset]

/-! ### Transfer lemmas: the cleaned frame vs the input columns -/

theorem cleaned_filter_seller (df : DataFrame) (s : String) :
    (cleanedRows df).filter (fun r => r.seller = s)
      = (df.rows.filter (fun r => r.seller = s)).map (cleanRow df.hasSupply df.hasCancel) :=
  filter_seller_map_clean _ _ _ _

theorem cleaned_seller_orderIds (df : DataFrame) (s : String) :
    ((cleanedRows df).filter (fun r => r.seller = s)).map Row.orderId
      = (df.rows.filter (fun r => r.seller = s)).map Row.orderId := by
  rw [cleaned_filter_seller, List.map_map]
  exact List.map_congr_left (fun r _ => rfl)

theorem cleaned_seller_contacts (df : DataFrame) (s : String) :
    ((cleanedRows df).filter (fun r => r.seller = s)).filterMap Row.contact
      = (df.rows.filter (fun r => r.seller = s)).filterMap Row.contact := by
  rw [cleaned_filter_seller, List.filterMap_map]
  rfl

theorem cleaned_seller_dates (df : DataFrame) (s : String) :
    ((cleanedRows df).filter (fun r => r.seller = s)).map Row.orderDate
      = (df.rows.filter (fun r => r.seller = s)).map Row.orderDate := by
  rw [cleaned_filter_seller, List.map_map]
  exact List.map_congr_left (fun r _ => rfl)

theorem cleaned_dates (df : DataFrame) :
    (cleanedRows df).map Row.orderDate = df.rows.map Row.orderDate := by
  unfold cleanedRows
  rw [List.map_map]
  exact List.map_congr_left (fun r _ => rfl)

theorem exists_orig_row {df : DataFrame} {s : String}
    (h : s ∈ sortedSellers (cleanedRows df)) :
    ∃ r, r ∈ df.rows.filter (fun r => r.seller = s) := by
  rw [mem_sortedSellers, List.mem_map] at h
  obtain ⟨r, hr, hrs⟩ := h
  unfold cleanedRows at hr
  rw [List.mem_map] at hr
  obtain ⟨r0, hr0, rfl⟩ := hr
  have hs0 : r0.seller = s := by simpa using hrs
  exact ⟨r0, List.mem_filter.mpr ⟨hr0, by simp [hs0]⟩⟩

theorem statOf_base_fields (df : DataFrame) (s : String) :
    (statOf df s).totalRevenue = (baseStat (cleanedRows df) s).totalRevenue ∧
    (statOf df s).totalMargin = (baseStat (cleanedRows df) s).totalMargin ∧
    (statOf df s).orderCount = (baseStat (cleanedRows df) s).orderCount ∧
    (statOf df s).cancelCount = (baseStat (cleanedRows df) s).cancelCount ∧
    (statOf df s).marginRate = (baseStat (cleanedRows df) s).marginRate ∧
    (statOf df s).cancelRate = (baseStat (cleanedRows df) s).cancelRate := by
  unfold statOf
  obtain ⟨a1, a2, a3, a4, a5, a6, a7, a8, a9, a10⟩ :=
    addLifecycle_stable df.hasOrderDate (cleanedRows df)
      (withRepurchase df.hasContact (cleanedRows df) (baseStat (cleanedRows df) s))
  obtain ⟨b1, b2, b3, b4, b5, b6, b7, b8, b9⟩ :=
    withRepurchase_stable df.hasContact (cleanedRows df) (baseStat (cleanedRows df) s)
  exact ⟨a2.trans b2, a3.trans b3, a4.trans b4, a6.trans b6, a7.trans b7, a8.trans b8⟩

theorem statOf_repurchaseRate (df : DataFrame) (s : String) :
    (statOf df s).repurchaseRate
      = if df.hasContact then sellerRepurchaseRate (cleanedRows df) s else 0 := by
  unfold statOf
  rw [(addLifecycle_stable _ _ _).2.2.2.2.2.2.2.2.2]
  rfl

theorem stripCurrency_removeCommas (s : String) :
    stripCurrency (removeCommas s) = stripCurrency s := by
  unfold stripCurrency removeCommas
  apply congrArg String.mk
  show (s.toList.filter _).filter _ = s.toList.filter _
  rw [List.filter_filter]
  apply List.filter_congr
  intro c _
  by_cases hc : c = ','
  · subst hc
    decide
  · have hb : (c != ',') = true := by simpa using hc
    rw [hb, Bool.and_true]

/-! ### Claim theorems -/

/-- C4, counterexample: the claim says every configured currency column
cell is cleaned by stripping non-numeric characters and coercing
unparseable remainders to 0, never raising.  load_data's price-column
cleaning (src/app.py lines 43-45) only removes commas and then casts to
float, which raises (modelled by `none`) on the unparseable cell "abc"
instead of producing 0. -/
theorem C4_counterexample :
    loadDataCleanCell "abc" = none ∧ loadDataCleanCell "12,345" = some 12345 := by
  constructor
  · have h : scanNum (removeCommas "abc") = ⟨false, false, 5451, 0, 0⟩ := by decide
    norm_num [loadDataCleanCell, parseNum, h]
  · have h : scanNum (removeCommas "12,345") = ⟨true, false, 12345, 0, 0⟩ := by decide
    norm_num [loadDataCleanCell, parseNum, h]

/-- C4 (amended): the strip-and-coerce cleaning holds for the currency
cells cleaned inside calculate_seller_metrics: "12,345" parses to 12345,
the unparseable "abc" coerces to 0, and the cleaning is insensitive to
thousands separators in general; load_data's comma-removal path is the
one that can fail (see the counterexample). -/
theorem C4_clean_currency :
    cleanCurrencyCell "12,345" = 12345 ∧ cleanCurrencyCell "abc" = 0 ∧
    (∀ s : String, cleanCurrencyCell (removeCommas s) = cleanCurrencyCell s) := by
  refine ⟨?_, ?_, ?_⟩
  · have h : scanNum (stripCurrency "12,345") = ⟨true, false, 12345, 0, 0⟩ := by decide
    norm_num [cleanCurrencyCell, parseNum, h]
  · have h : scanNum (stripCurrency "abc") = ⟨false, false, 0, 0, 0⟩ := by decide
    norm_num [cleanCurrencyCell, parseNum, h]
  · intro s
    unfold cleanCurrencyCell
    rw [stripCurrency_removeCommas]

/-- C4, witness: the comma-insensitivity clause applied at a concrete
cell. -/
theorem C4_clean_currency_witness :
    cleanCurrencyCell (removeCommas "12,345") = cleanCurrencyCell "12,345" :=
  C4_clean_currency.2.2 "12,345"

/-- C5, counterexample: calculate_seller_metrics is not a pure function
of its input table: after the call, the input frame has changed (the
Margin and IsCancelled columns were added in place). -/
theorem C5_counterexample : (calculate_seller_metrics dfPlain).1 ≠ dfPlain := by
  intro hEq
  have h2 := congrArg (fun d => d.rows.map Row.margin) hEq
  simp +decide [calculate_seller_metrics, cleanedRows, dfPlain, rowPlain, cleanRow] at h2

/-- C5 (amended): the summary depends only on the input, but the input
frame is mutated in place, and exactly this far: the presence flags and
the source columns (seller, order id, contact, order date, quantity,
supply price, cancellation flag) are unchanged, rows are neither added,
removed nor reordered, while the paid amount is coerced in place (null
to 0), a Margin and an IsCancelled column are always added, and a
SupplyCost column is added exactly when the supply-price column is
present. -/
theorem C5_mutation_extent (df : DataFrame) :
    (calculate_seller_metrics df).1.hasOrderDate = df.hasOrderDate ∧
    (calculate_seller_metrics df).1.hasContact = df.hasContact ∧
    (calculate_seller_metrics df).1.hasSupply = df.hasSupply ∧
    (calculate_seller_metrics df).1.hasCancel = df.hasCancel ∧
    (calculate_seller_metrics df).1.rows.map Row.seller = df.rows.map Row.seller ∧
    (calculate_seller_metrics df).1.rows.map Row.orderId = df.rows.map Row.orderId ∧
    (calculate_seller_metrics df).1.rows.map Row.contact = df.rows.map Row.contact ∧
    (calculate_seller_metrics df).1.rows.map Row.orderDate = df.rows.map Row.orderDate ∧
    (calculate_seller_metrics df).1.rows.map Row.qty = df.rows.map Row.qty ∧
    (calculate_seller_metrics df).1.rows.map Row.supplyPrice = df.rows.map Row.supplyPrice ∧
    (calculate_seller_metrics df).1.rows.map Row.cancelFlag = df.rows.map Row.cancelFlag ∧
    (calculate_seller_metrics df).1.rows.map Row.paid
      = df.rows.map (fun r => some (r.paid.getD 0)) ∧
    (calculate_seller_metrics df).1.rows.map (fun r => r.margin.isSome)
      = df.rows.map (fun _ => true) ∧
    (calculate_seller_metrics df).1.rows.map (fun r => r.isCancelled.isSome)
      = df.rows.map (fun _ => true) ∧
    (calculate_seller_metrics df).1.rows.map (fun r => r.supplyCost.isSome)
      = df.rows.map (fun r => (df.hasSupply || r.supplyCost.isSome)) := by
  have hrows : (calculate_seller_metrics df).1.rows = cleanedRows df := rfl
  refine ⟨rfl, rfl, rfl, rfl, ?_, ?_, ?_, ?_, ?_, ?_, ?_, ?_, ?_, ?_, ?_⟩
  all_goals
    rw [hrows]
    unfold cleanedRows
    rw [List.map_map]
    apply List.map_congr_left
    intro r hr
    first
      | rfl
      | (cases hS : df.hasSupply <;> simp [cleanRow, hS])

/-- C5, witness: the mutation-extent theorem applied at a concrete
frame. -/
theorem C5_mutation_extent_witness :
    (calculate_seller_metrics dfPlain).1.hasOrderDate = dfPlain.hasOrderDate ∧
    (calculate_seller_metrics dfPlain).1.hasContact = dfPlain.hasContact ∧
    (calculate_seller_metrics dfPlain).1.hasSupply = dfPlain.hasSupply ∧
    (calculate_seller_metrics dfPlain).1.hasCancel = dfPlain.hasCancel ∧
    (calculate_seller_metrics dfPlain).1.rows.map Row.seller = dfPlain.rows.map Row.seller ∧
    (calculate_seller_metrics dfPlain).1.rows.map Row.orderId = dfPlain.rows.map Row.orderId ∧
    (calculate_seller_metrics dfPlain).1.rows.map Row.contact = dfPlain.rows.map Row.contact ∧
    (calculate_seller_metrics dfPlain).1.rows.map Row.orderDate = dfPlain.rows.map Row.orderDate ∧
    (calculate_seller_metrics dfPlain).1.rows.map Row.qty = dfPlain.rows.map Row.qty ∧
    (calculate_seller_metrics dfPlain).1.rows.map Row.supplyPrice
      = dfPlain.rows.map Row.supplyPrice ∧
    (calculate_seller_metrics dfPlain).1.rows.map Row.cancelFlag
      = dfPlain.rows.map Row.cancelFlag ∧
    (calculate_seller_metrics dfPlain).1.rows.map Row.paid
      = dfPlain.rows.map (fun r => some (r.paid.getD 0)) ∧
    (calculate_seller_metrics dfPlain).1.rows.map (fun r => r.margin.isSome)
      = dfPlain.rows.map (fun _ => true) ∧
    (calculate_seller_metrics dfPlain).1.rows.map (fun r => r.isCancelled.isSome)
      = dfPlain.rows.map (fun _ => true) ∧
    (calculate_seller_metrics dfPlain).1.rows.map (fun r => r.supplyCost.isSome)
      = dfPlain.rows.map (fun r => (dfPlain.hasSupply || r.supplyCost.isSome)) :=
  C5_mutation_extent dfPlain

/-- C6, counterexample: two sellers a and b are tied on TotalRevenue;
their order before the final sort (the groupby key order) is a then b,
but the descending sort emits b then a: ties do not retain their
pre-sort relative order (pandas reverses the ascending order for a
descending sort). -/
theorem C6_counterexample :
    sortedSellers (cleanedRows dfTie) = ["a", "b"] ∧
    (calculate_seller_metrics dfTie).2.map SellerStat.seller = ["b", "a"] ∧
    (calculate_seller_metrics dfTie).2.map SellerStat.totalRevenue = [5, 5] := by
  have h : scanNum (stripCurrency "") = ⟨false, false, 0, 0, 0⟩ := by decide
  refine ⟨?_, ?_, ?_⟩ <;>
    norm_num +decide [calculate_seller_metrics, dfTie, rowTieA, rowTieB, cleanRow,
      statOf, sortedSellers, cleanedRows, baseStat, sellerRepurchaseRate, withRepurchase,
      addLifecycle, statLe, pandasSortByRevenueDesc, nameLe, charListLe,
      cleanCurrencyCell, parseNum, h, List.insertionSort, List.orderedInsert,
      pdiv, pmul100, fillna0]

/-- C6 (amended): the seller summary is sorted by TotalRevenue
descending; equal-revenue sellers are not kept in their pre-sort
relative order (the counterexample shows a tie emitted in reversed
order). -/
theorem C6_sorted_desc (df : DataFrame) :
    List.Sorted (fun a b : SellerStat => b.totalRevenue ≤ a.totalRevenue)
      ((calculate_seller_metrics df).2) := by
  rw [metrics_snd]
  show List.Pairwise _ _
  rw [List.pairwise_reverse]
  exact List.sorted_insertionSort statLe ((sortedSellers (cleanedRows df)).map (statOf df))

/-- C6, witness: the descending-sort theorem applied at the tied frame. -/
theorem C6_sorted_desc_witness :
    List.Sorted (fun a b : SellerStat => b.totalRevenue ≤ a.totalRevenue)
      ((calculate_seller_metrics dfTie).2) :=
  C6_sorted_desc dfTie

/-- C10: the two per-seller repurchase computations are not equivalent.
On a customer with two same-day line items from one seller,
analyze_seller_repurchase (distinct order dates per customer) reports
0 percent, while calculate_seller_metrics (raw row occurrences per
customer) reports 100 percent for the same seller. -/
theorem C10_repurchase_defs_differ :
    analyze_repurchase_rate dfDup.rows "s" = 0 ∧
    (calculate_seller_metrics dfDup).2.map SellerStat.repurchaseRate = [100] := by
  have h : scanNum (stripCurrency "") = ⟨false, false, 0, 0, 0⟩ := by decide
  constructor
  · norm_num +decide [analyze_repurchase_rate, dfDup, rowDup1, rowDup2]
  · norm_num +decide [calculate_seller_metrics, dfDup, rowDup1, rowDup2, cleanRow,
      statOf, sortedSellers, cleanedRows, baseStat, sellerRepurchaseRate, withRepurchase,
      addLifecycle, statLe, pandasSortByRevenueDesc, nameLe, charListLe,
      cleanCurrencyCell, parseNum, h, List.insertionSort, List.orderedInsert,
      pdiv, pmul100, fillna0, listMax, listMin,
      List.filterMap_cons, List.count_cons, List.dedup_cons_of_mem,
      List.dedup_cons_of_not_mem]

/-- C1, counterexample: a seller whose rows sum to TotalRevenue 0 but
TotalMargin -10 gets MarginRate negative infinity, not 0: the claim that
MarginRate is never an infinity and equals 0 when TotalRevenue is 0 is
false on the code (fillna(0) replaces only NaN). -/
theorem C1_counterexample :
    (calculate_seller_metrics dfNegMargin).2.map
      (fun st => (st.totalRevenue, st.totalMargin, st.marginRate))
      = [(0, -10, PFloat.neginf)] := by
  have h : scanNum (stripCurrency "10") = ⟨true, false, 10, 0, 0⟩ := by decide
  norm_num +decide [calculate_seller_metrics, dfNegMargin, rowNegMargin, cleanRow,
    statOf, sortedSellers, cleanedRows, baseStat, sellerRepurchaseRate, withRepurchase,
    addLifecycle, statLe, pandasSortByRevenueDesc, nameLe, charListLe,
    cleanCurrencyCell, parseNum, h, List.insertionSort, List.orderedInsert,
    pdiv, pmul100, fillna0]

/-- C1 (amended): in every seller summary row, MarginRate and CancelRate
are never NaN; CancelRate always equals CancelCount / OrderCount x 100
with OrderCount at least 1; MarginRate equals TotalMargin / TotalRevenue
x 100 when TotalRevenue is nonzero, equals 0 when both TotalRevenue and
TotalMargin are 0, and is a signed infinity (not 0) when TotalRevenue is
0 but TotalMargin is not. -/
theorem C1_rates_defined (df : DataFrame) :
    ((calculate_seller_metrics df).2).Forall RatesDefined := by
  apply forall_metrics
  intro s hs
  obtain ⟨e1, e2, e3, e4, e5, e6⟩ := statOf_base_fields df s
  unfold RatesDefined
  rw [e1, e2, e3, e4, e5, e6, baseStat_marginRate, baseStat_cancelRate]
  have hoc : 0 < (baseStat (cleanedRows df) s).orderCount := orderCount_pos hs
  have hocq : ((baseStat (cleanedRows df) s).orderCount : ℚ) ≠ 0 :=
    Nat.cast_ne_zero.mpr hoc.ne'
  refine ⟨?_, ?_, hoc, ?_, ?_, ?_, ?_⟩
  · rcases eq_or_ne (baseStat (cleanedRows df) s).totalRevenue 0 with h0 | h0
    · rw [h0]
      rcases eq_or_ne (baseStat (cleanedRows df) s).totalMargin 0 with h1 | h1
      · rw [h1, pdiv_zero_zero]
        simp [pmul100, fillna0]
      · rcases h1.lt_or_lt with h2 | h2
        · rw [pdiv_neg_zero h2]
          simp [pmul100, fillna0]
        · rw [pdiv_pos_zero h2]
          simp [pmul100, fillna0]
    · rw [pdiv_of_ne_zero h0]
      simp [pmul100, fillna0]
  · rw [pdiv_of_ne_zero hocq]
    simp [pmul100, fillna0]
  · rw [pdiv_of_ne_zero hocq]
    simp [pmul100, fillna0]
  · intro h0
    rw [pdiv_of_ne_zero h0]
    simp [pmul100, fillna0]
  · intro h0 h1
    rw [h0, h1, pdiv_zero_zero]
    simp [pmul100, fillna0]
  · intro h0 h1
    rw [h0]
    rcases h1.lt_or_lt with h2 | h2
    · right
      rw [pdiv_neg_zero h2]
      simp [pmul100, fillna0]
    · left
      rw [pdiv_pos_zero h2]
      simp [pmul100, fillna0]

/-- C1, witness: the amended rate theorem applied at the zero-revenue
frame. -/
theorem C1_rates_defined_witness :
    ((calculate_seller_metrics dfNegMargin).2).Forall RatesDefined :=
  C1_rates_defined dfNegMargin

theorem lookup_user_order_counts {rows : List Row} {r : Row} {c : String}
    (hr : r ∈ rows) (hc : r.contact = some c) :
    (user_order_counts rows).lookup c
      = some (((rows.filter (fun x => x.contact = some c)).map Row.orderDate).dedup.length) := by
  have hck : c ∈ (rows.filterMap Row.contact).dedup :=
    List.mem_dedup.mpr (List.mem_filterMap.mpr ⟨r, hr, hc⟩)
  unfold user_order_counts
  exact lookup_map_self _ _ _ hck

theorem dedup_filter_count_length {α : Type} [DecidableEq α] (l : List α) :
    (l.toFinset.filter (fun c => 1 < l.count c)).card
      = (l.dedup.filter (fun c => 1 < l.count c)).length := by
  rw [dedup_filter_length]
  apply congrArg Finset.card
  apply Finset.filter_congr
  intro c _
  simp

/-- C2: the global repurchase annotator attaches to every row the number
of distinct calendar dates of its customer identity minus one (two
same-day orders count once), the value is never negative, and rows with
a null identity are excluded from the grouping and receive 0. -/
theorem C2_repurchase_annotator (rows : List Row) :
    calculate_repurchase rows = rows.map (specRepurchase rows) ∧
    (rows.map (specRepurchase rows)).Forall (fun v => 0 ≤ v) := by
  constructor
  · unfold calculate_repurchase
    apply List.map_congr_left
    intro r hr
    unfold specRepurchase
    cases hc : r.contact with
    | none => rfl
    | some c =>
      show (match (user_order_counts rows).lookup c with
            | some n => (n : ℤ) - 1
            | none => 0)
          = (((rows.filter (fun x => x.contact = some c)).map Row.orderDate).toFinset.card : ℤ)
              - 1
      rw [lookup_user_order_counts hr hc, List.card_toFinset]
  · rw [List.forall_iff_forall_mem]
    intro v hv
    rw [List.mem_map] at hv
    obtain ⟨r, hr, rfl⟩ := hv
    unfold specRepurchase
    cases hc : r.contact with
    | none => simp
    | some c =>
      have hmem : r.orderDate
          ∈ (rows.filter (fun x => x.contact = some c)).map Row.orderDate :=
        List.mem_map_of_mem Row.orderDate (List.mem_filter.mpr ⟨hr, by simp [hc]⟩)
      have hpos :
          0 < ((rows.filter (fun x => x.contact = some c)).map Row.orderDate).toFinset.card :=
        Finset.card_pos.mpr ⟨r.orderDate, List.mem_toFinset.mpr hmem⟩
      show (0 : ℤ)
          ≤ (((rows.filter (fun x => x.contact = some c)).map Row.orderDate).toFinset.card : ℤ)
              - 1
      omega

/-- C2, witness: the annotator theorem applied at a concrete table (one
customer with two same-day rows). -/
theorem C2_repurchase_annotator_witness :
    calculate_repurchase dfDup.rows = dfDup.rows.map (specRepurchase dfDup.rows) ∧
    (dfDup.rows.map (specRepurchase dfDup.rows)).Forall (fun v => 0 ≤ v) :=
  C2_repurchase_annotator dfDup.rows

/-- C3: in every seller summary row, RepurchaseRate is computed over
that seller's rows only by counting raw row occurrences per customer
identity (a customer repurchases when they occur in more than one row),
as repurchasers / distinct customers x 100, with 0 when the seller has
no customers and 0 for every seller when the identity column is
absent. -/
theorem C3_seller_repurchase (df : DataFrame) :
    ((calculate_seller_metrics df).2).Forall
      (fun st => st.repurchaseRate = specSellerRepurchase df st.seller) := by
  apply forall_metrics
  intro s hs
  rw [statOf_seller, statOf_repurchaseRate]
  simp only [specSellerRepurchase]
  cases hC : df.hasContact with
  | false => simp
  | true =>
    simp only [if_true]
    simp only [sellerRepurchaseRate]
    rw [cleaned_seller_contacts]
    rw [List.card_toFinset, dedup_filter_count_length]

/-- C3, witness: the per-seller repurchase-rate theorem applied at a
concrete frame with a repeat customer. -/
theorem C3_seller_repurchase_witness :
    ((calculate_seller_metrics dfDup).2).Forall
      (fun st => st.repurchaseRate = specSellerRepurchase dfDup st.seller) :=
  C3_seller_repurchase dfDup

/-- C7: in every seller summary row, OrderCount is the number of
distinct order ids among that seller's rows (as a finite-set
cardinality), not the raw row count, so a multi-line order is counted
once. -/
theorem C7_order_count (df : DataFrame) :
    ((calculate_seller_metrics df).2).Forall (fun st =>
      st.orderCount
        = ((df.rows.filter (fun r => r.seller = st.seller)).map Row.orderId).toFinset.card) := by
  apply forall_metrics
  intro s hs
  rw [statOf_seller, (statOf_base_fields df s).2.2.1, baseStat_orderCount,
    cleaned_seller_orderIds, List.card_toFinset]

/-- C7, witness: the distinct-count theorem applied at a frame with one
multi-line order (two rows, one order id). -/
theorem C7_order_count_witness :
    ((calculate_seller_metrics dfMulti).2).Forall (fun st =>
      st.orderCount
        = ((dfMulti.rows.filter (fun r => r.seller = st.seller)).map Row.orderId).toFinset.card) :=
  C7_order_count dfMulti

/-- C9: in every seller summary row, CancelCount counts exactly the
rows whose cancellation cell is the string Y (any other value, lowercase
y, N, or a null cell, is not counted), and it is 0 for every seller when
the cancellation column is absent. -/
theorem C9_cancel_flag (df : DataFrame) :
    ((calculate_seller_metrics df).2).Forall (fun st =>
      st.cancelCount
        = if df.hasCancel
          then (df.rows.filter (fun r => r.seller = st.seller ∧ r.cancelFlag = some "Y")).length
          else 0) := by
  apply forall_metrics
  intro s hs
  rw [statOf_seller, (statOf_base_fields df s).2.2.2.1, baseStat_cancelCount,
    cleaned_filter_seller, List.map_map]
  have hpt : (df.rows.filter (fun r => r.seller = s)).map
        ((fun r => r.isCancelled.getD 0) ∘ cleanRow df.hasSupply df.hasCancel)
      = (df.rows.filter (fun r => r.seller = s)).map
        (fun r => if df.hasCancel && (r.cancelFlag == some "Y") then (1 : ℕ) else 0) :=
    List.map_congr_left (fun r _ => rfl)
  rw [hpt]
  cases hC : df.hasCancel with
  | false => simp
  | true =>
    simp only [Bool.true_and, if_true]
    rw [sum_indicator_eq_length (fun r => r.cancelFlag == some "Y"), List.filter_filter]
    apply congrArg List.length
    apply List.filter_congr
    intro r _
    by_cases h1 : r.seller = s <;> by_cases h2 : r.cancelFlag = some "Y" <;>
      simp [h1, h2]

/-- C9, witness: the cancellation-flag theorem applied at a frame whose
cells are Y, lowercase y and null. -/
theorem C9_cancel_flag_witness :
    ((calculate_seller_metrics dfCancel).2).Forall (fun st =>
      st.cancelCount
        = if dfCancel.hasCancel
          then (dfCancel.rows.filter
              (fun r => r.seller = st.seller ∧ r.cancelFlag = some "Y")).length
          else 0) :=
  C9_cancel_flag dfCancel

/-- C8: in every seller summary row, when the order-date column is
present, TenureDays is (last - first order date) + 1 and RecencyDays is
(dataset-wide maximum date - this seller's last date), where first and
last are the true minimum and maximum over that seller's rows; when the
column is absent both fields default to 0 (and the first order date is
null) and the aggregation still returns normally. -/
theorem C8_lifecycle (df : DataFrame) :
    ((calculate_seller_metrics df).2).Forall (LifecycleSpec df) := by
  apply forall_metrics
  intro s hs
  unfold LifecycleSpec
  rw [statOf_seller]
  cases hD : df.hasOrderDate with
  | false =>
    simp only [Bool.false_eq_true, if_false]
    unfold statOf
    rw [hD]
    unfold addLifecycle
    simp
  | true =>
    simp only [eq_self_iff_true, if_true]
    have hds : ((cleanedRows df).filter (fun r => r.seller = s)).map Row.orderDate
        = (df.rows.filter (fun r => r.seller = s)).map Row.orderDate :=
      cleaned_seller_dates df s
    obtain ⟨r0, hr0⟩ := exists_orig_row hs
    have hne : (df.rows.filter (fun r => r.seller = s)).map Row.orderDate ≠ [] :=
      List.ne_nil_of_mem (List.mem_map_of_mem Row.orderDate hr0)
    have hneAll : df.rows.map Row.orderDate ≠ [] :=
      List.ne_nil_of_mem (List.mem_map_of_mem Row.orderDate (List.mem_filter.mp hr0).1)
    have hsel : (withRepurchase df.hasContact (cleanedRows df)
        (baseStat (cleanedRows df) s)).seller = s := by
      rw [(withRepurchase_stable _ _ _).1, baseStat_seller]
    have hfields :
        (statOf df s).firstOrderDate
            = some (listMin ((df.rows.filter (fun r => r.seller = s)).map Row.orderDate)) ∧
        (statOf df s).lastOrderDate
            = some (listMax ((df.rows.filter (fun r => r.seller = s)).map Row.orderDate)) ∧
        (statOf df s).tenureDays
            = listMax ((df.rows.filter (fun r => r.seller = s)).map Row.orderDate)
              - listMin ((df.rows.filter (fun r => r.seller = s)).map Row.orderDate) + 1 ∧
        (statOf df s).recencyDays
            = listMax (df.rows.map Row.orderDate)
              - listMax ((df.rows.filter (fun r => r.seller = s)).map Row.orderDate) := by
      unfold statOf addLifecycle
      rw [hD]
      simp only [eq_self_iff_true, if_true, hsel, hds, cleaned_dates]
      exact ⟨trivial, trivial, trivial, trivial⟩
    exact ⟨listMin ((df.rows.filter (fun r => r.seller = s)).map Row.orderDate),
      listMax ((df.rows.filter (fun r => r.seller = s)).map Row.orderDate),
      listMax (df.rows.map Row.orderDate),
      listMin_isMin hne, listMax_isMax hne, listMax_isMax hneAll,
      hfields.1, hfields.2.1, hfields.2.2.1, hfields.2.2.2⟩

/-- C8, witness: the lifecycle theorem applied at a frame whose
order-date column is present. -/
theorem C8_lifecycle_witness :
    ((calculate_seller_metrics dfDup).2).Forall (LifecycleSpec dfDup) :=
  C8_lifecycle dfDup
